import Mathlib

/-!
Shallow embedding of the `YouTubeChannelVideos` widget
(`src/unnamed/part_000`, class starting at line 698): the video-acquisition
pipeline `init()` — configuration validation, localStorage cache with TTL
(`getFromCache` / `saveToCache`), the fetch outcome dispatch, the static
fallback composer (`createFallbackVideos`), and the render / error terminal
steps.

Modelling decisions, each justified by the JS source:
* Times are naturals in milliseconds (`Date.now()`); the configured
  `cacheExpiration` option is in seconds and the code multiplies by 1000.
* The localStorage store is modelled per channel key (the run uses the single
  key `youtube-videos-${channelId || channelUsername}`), as
  `Option StoreVal`: `none` is an absent entry; `StoreVal.good videos ts`
  is a stored serialized `{videos, timestamp}` value that parses back;
  `StoreVal.corrupt raw` is any stored string whose `JSON.parse` (or the
  destructuring of its result) throws — the code catches that exception and
  returns `null`.
* The network is an oracle: the whole `fetchVideos()` chain either resolves
  with a (possibly empty) list of normalized records or rejects with an
  error; `init` never inspects the error beyond logging, so
  `Except String (List Video)` is enough.
* `localStorage.setItem` can throw (quota); `putOk : Bool` says whether this
  run's write succeeds.  `saveToCache` catches the failure.
* DOM effects are recorded as an event trace: the (single) network fetch, a
  successful cache write, `renderVideos` with the exact record list, and
  `showError` with the exact message string.  Diagnostic `console` logging is
  not an event.
-/

/-- Thumbnail reference: `{url, width, height}` as built by the fallback
composer and as carried by normalized API records. -/
structure Thumb where
  url : String
  width : Nat
  height : Nat
deriving DecidableEq

/-- VideoRecord as produced by `fetchVideos` normalization or by
`createFallbackVideos`.  API records carry no `url` field (`none`); fallback
records always set it. `publishedAt` is a millisecond timestamp. -/
structure Video where
  id : String
  title : String
  description : String
  thumbnail : Thumb
  publishedAt : Nat
  channelTitle : String
  url : Option String
deriving DecidableEq

/-- Fallback configuration entry: either a bare video-id string, or an
object with an `id` and optional `title` / `url` fields.  `obj none _ _`
represents a malformed object entry whose `id` property is missing
(JS `undefined`). -/
inductive FallbackEntry where
  | str (id : String)
  | obj (id : Option String) (title : Option String) (url : Option String)
deriving DecidableEq

/-- Configuration options of the widget (constructor lines 700–712).
Empty string models a missing / empty string option, matching the JS
falsiness checks `!this.options.apiKey` etc.  `fallbackVideos = none`
models an absent (`undefined`/`null`) fallback list. -/
structure Options where
  apiKey : String
  channelId : String
  channelUsername : String
  maxResults : Nat
  cacheExpiration : Nat
  featuredVideo : Bool
  fallbackVideos : Option (List FallbackEntry)
deriving DecidableEq

/-- Stored value under the widget's cache key.  `good videos ts` is a
serialized `{videos, timestamp}` pair that `JSON.parse` recovers; `corrupt
raw` is a stored string on which the parse/destructure throws. -/
inductive StoreVal where
  | good (videos : List Video) (timestamp : Nat)
  | corrupt (raw : String)
deriving DecidableEq

/-- Observable pipeline effects of a single `init()` run. -/
inductive Event where
  | networkFetch
  | cacheWrite (videos : List Video)
  | render (videos : List Video)
  | showError (msg : String)
deriving DecidableEq

/-- Result of a run: the ordered effect trace and the final store content
under the channel cache key. -/
structure RunResult where
  events : List Event
  store : Option StoreVal
deriving DecidableEq

/-- JS truthiness-based defaulting used by the fallback composer:
`cond ? cond : dflt` where `cond` is an optional string — both a missing
property (`none`) and the empty string are falsy. -/
def jsStrOr (v : Option String) (dflt : String) : String :=
  match v with
  | none => dflt
  | some s => if s = "" then dflt else s

/-- Interpolation of a possibly-missing JS string: `${undefined}` renders as
the literal text `undefined`. -/
def jsInterp (v : Option String) : String :=
  match v with
  | none => "undefined"
  | some s => s

/-- One fallback record, from the `map` callback of `createFallbackVideos`
(lines 1080–1099).  `idx` is the 0-based position; `now` is the run time
(`new Date()` for `publishedAt`). -/
def synthFallbackVideo (now : Nat) (idx : Nat) (e : FallbackEntry) : Video :=
  let videoId : String :=
    match e with
    | FallbackEntry.str s => s
    | FallbackEntry.obj i _ _ => jsInterp i
  let videoTitle : String :=
    match e with
    | FallbackEntry.str _ => "Video " ++ toString (idx + 1)
    | FallbackEntry.obj _ t _ => jsStrOr t ("Video " ++ toString (idx + 1))
  let videoUrl : String :=
    match e with
    | FallbackEntry.str _ => "https://www.youtube.com/watch?v=" ++ videoId
    | FallbackEntry.obj _ _ u => jsStrOr u ("https://www.youtube.com/watch?v=" ++ videoId)
  { id := videoId
    title := videoTitle
    description := ""
    thumbnail :=
      { url := "https://i.ytimg.com/vi/" ++ videoId ++ "/hqdefault.jpg"
        width := 480
        height := 360 }
    publishedAt := now
    channelTitle := "Alaan TV Channel"
    url := some videoUrl }

/-- createFallbackVideos (lines 1075–1100): absent or empty configured list
yields `[]`; otherwise each entry maps to a synthesized record.  Total: for
any list of string/object entries the JS body cannot throw, and it touches
no network — it takes no network oracle at all. -/
def createFallbackVideos (fallbackVideos : Option (List FallbackEntry)) (now : Nat) :
    List Video :=
  match fallbackVideos with
  | none => []
  | some l =>
    if l.length = 0 then []
    else l.mapIdx (fun idx e => synthFallbackVideo now idx e)

/-- getFromCache (lines 1048–1067).  Returns the JS return value (`null`
becomes `none`; note a stored empty array is still a hit, arrays are truthy)
together with the store content after the call.  An entry is evicted exactly
when `Date.now() > timestamp + cacheExpiration * 1000`; a corrupt entry
makes the parse throw, the catch returns `null`, and — unlike the expired
case — nothing is removed. -/
def getFromCache (opts : Options) (store : Option StoreVal) (now : Nat) :
    Option (List Video) × Option StoreVal :=
  match store with
  | none => (none, none)
  | some (StoreVal.corrupt s) => (none, some (StoreVal.corrupt s))
  | some (StoreVal.good vs ts) =>
    if ts + opts.cacheExpiration * 1000 < now then (none, none)
    else (some vs, some (StoreVal.good vs ts))

/-- saveToCache (lines 1033–1043): stores `{videos, timestamp: Date.now()}`;
a storage failure (`putOk = false`) is caught and logged, leaving the store
as it was. -/
def saveToCache (videos : List Video) (store : Option StoreVal) (putOk : Bool)
    (tSave : Nat) : Option StoreVal :=
  if putOk then some (StoreVal.good videos tSave) else store

/-- Configuration accepted by the three guards at the top of `init`
(lines 722–735): container resolvable, API key non-empty, and at least one
of `channelId` / `channelUsername` non-empty. -/
def validConfig (opts : Options) (containerFound : Bool) : Prop :=
  containerFound = true ∧ opts.apiKey ≠ "" ∧
    (opts.channelId ≠ "" ∨ opts.channelUsername ≠ "")

instance (opts : Options) (cf : Bool) : Decidable (validConfig opts cf) := by
  unfold validConfig
  infer_instance

/-- Dispatch on the outcome of the `fetchVideos()` promise — the `.then` /
`.catch` handlers of `init` (lines 748–775).  `≥ 1` records → save to cache
(`putOk` says whether `setItem` succeeds), render; `0` records or rejection
→ compose fallback records, render them if any, else show the error view
with the branch-specific message (`No videos found` for an empty success,
`Failed to load videos` for a rejection). -/
def dispatchFetch (opts : Options) (store1 : Option StoreVal) (now tSave : Nat)
    (fetchResult : Except String (List Video)) (putOk : Bool) : RunResult :=
  match fetchResult with
  | Except.ok vs =>
    if vs.length > 0 then
      ⟨Event.networkFetch ::
          ((if putOk then [Event.cacheWrite vs] else []) ++ [Event.render vs]),
        saveToCache vs store1 putOk tSave⟩
    else if (createFallbackVideos opts.fallbackVideos now).length > 0 then
      ⟨[Event.networkFetch,
          Event.render (createFallbackVideos opts.fallbackVideos now)], store1⟩
    else ⟨[Event.networkFetch, Event.showError "No videos found"], store1⟩
  | Except.error _ =>
    if (createFallbackVideos opts.fallbackVideos now).length > 0 then
      ⟨[Event.networkFetch,
          Event.render (createFallbackVideos opts.fallbackVideos now)], store1⟩
    else ⟨[Event.networkFetch, Event.showError "Failed to load videos"], store1⟩

/-- Cache check onward (lines 737–775): a cache hit renders immediately and
ends the run; a miss enters loading and dispatches the fetch outcome over
the already-updated store (an expired entry was evicted by the check). -/
def runPipeline (opts : Options) (store : Option StoreVal) (now tSave : Nat)
    (fetchResult : Except String (List Video)) (putOk : Bool) : RunResult :=
  match (getFromCache opts store now).1 with
  | some vs => ⟨[Event.render vs], (getFromCache opts store now).2⟩
  | none => dispatchFetch opts (getFromCache opts store now).2 now tSave fetchResult putOk

/-- init (lines 721–776), one whole run: the three validation guards, then
the pipeline.  `containerFound` is whether `document.querySelector` resolved
the container; each guard failure only logs a diagnostic and returns (empty
trace, store untouched — the cache is not even read). -/
def initRun (opts : Options) (containerFound : Bool) (store : Option StoreVal)
    (now tSave : Nat) (fetchResult : Except String (List Video)) (putOk : Bool) :
    RunResult :=
  if containerFound = false then ⟨[], store⟩
  else if opts.apiKey = "" then ⟨[], store⟩
  else if opts.channelId = "" ∧ opts.channelUsername = "" then ⟨[], store⟩
  else runPipeline opts store now tSave fetchResult putOk

/-- Concrete sample record used by concrete runs below. -/
def vEx : Video :=
  { id := "vid1", title := "T", description := "", thumbnail := ⟨"u", 1, 1⟩,
    publishedAt := 0, channelTitle := "C", url := none }

/-- Concrete baseline options used by concrete runs below. -/
def optsEx : Options :=
  { apiKey := "k", channelId := "UC1", channelUsername := "",
    maxResults := 10, cacheExpiration := 1, featuredVideo := false,
    fallbackVideos := some [FallbackEntry.str "abc"] }

/-! ## Claims -/

/-- C1 counterexample: at the exact boundary `capturedAt + ttl = now`
(timestamp 0, TTL 1 s, now = 1000 ms) the claim demands a miss with
eviction, but `getFromCache` compares strictly (`Date.now() >
expirationTime`) and returns the records as a hit, leaving the entry in
place. -/
theorem C1_boundary_counterexample :
    0 + optsEx.cacheExpiration * 1000 ≤ 1000 ∧
      getFromCache optsEx (some (StoreVal.good [vEx] 0)) 1000 =
        (some [vEx], some (StoreVal.good [vEx] 0)) := by
  constructor
  · decide
  · rfl

/-- C1 (amended): for every cache entry whose capture timestamp plus the
configured TTL is strictly less than the current time, a cache get treats
the entry as a miss (returns absent) and evicts the stored entry before
returning; at exactly `capturedAt + ttl = now` the entry is still a hit. -/
theorem C1_expired_entry_evicted (opts : Options) (vs : List Video)
    (ts now : Nat) (h : ts + opts.cacheExpiration * 1000 < now) :
    getFromCache opts (some (StoreVal.good vs ts)) now = (none, none) := by
  simp only [getFromCache]
  rw [if_pos h]

/-- C1 witness: timestamp 0, TTL 1 s, now = 1001 ms → miss and eviction. -/
theorem C1_expired_entry_evicted_witness :
    getFromCache optsEx (some (StoreVal.good [vEx] 0)) 1001 = (none, none) :=
  C1_expired_entry_evicted optsEx [vEx] 0 1001 (by decide)

/-- Helper: with a valid configuration all three guards pass and `init` is
the pipeline proper. -/
theorem initRun_of_valid (opts : Options) (cf : Bool) (store : Option StoreVal)
    (now tSave : Nat) (fr : Except String (List Video)) (putOk : Bool)
    (hv : validConfig opts cf) :
    initRun opts cf store now tSave fr putOk =
      runPipeline opts store now tSave fr putOk := by
  obtain ⟨hcf, hk, hid⟩ := hv
  subst hcf
  unfold initRun
  rw [if_neg (by simp), if_neg hk,
    if_neg (fun hab => hid.elim (fun h => h hab.1) (fun h => h hab.2))]

/-- Helper: on a cache miss the pipeline dispatches the fetch outcome over
the post-check store. -/
theorem runPipeline_miss (opts : Options) (store : Option StoreVal)
    (now tSave : Nat) (fr : Except String (List Video)) (putOk : Bool)
    (hmiss : (getFromCache opts store now).1 = none) :
    runPipeline opts store now tSave fr putOk =
      dispatchFetch opts (getFromCache opts store now).2 now tSave fr putOk := by
  unfold runPipeline
  rw [hmiss]

/-- Concrete options with BOTH `channelId` and `channelUsername` present. -/
def optsBoth : Options :=
  { apiKey := "k", channelId := "UC1", channelUsername := "@u",
    maxResults := 10, cacheExpiration := 3600, featuredVideo := false,
    fallbackVideos := none }

/-- Concrete options with the API key missing. -/
def optsNoKey : Options :=
  { apiKey := "", channelId := "UC1", channelUsername := "",
    maxResults := 10, cacheExpiration := 3600, featuredVideo := false,
    fallbackVideos := none }

/-- C2 counterexample: a configuration with BOTH the channel identifier and
the channel handle present is invalid under the claim's "exactly one"
requirement, yet `init` does not abort: it proceeds to the cache, issues the
network call and renders.  The guard at lines 732–735 only requires at
least one of the two. -/
theorem C2_both_ids_counterexample :
    optsBoth.channelId ≠ "" ∧ optsBoth.channelUsername ≠ "" ∧
      (initRun optsBoth true none 0 0 (Except.ok [vEx]) true).events =
        [Event.networkFetch, Event.cacheWrite [vEx], Event.render [vEx]] := by
  refine ⟨by decide, by decide, ?_⟩
  rfl

/-- C2 (amended): `init` validates the configuration before any cache or
network access — API key present, AT LEAST ONE of channel identifier /
channel handle present, render target resolvable; for every configuration
violating these it aborts fast with only a diagnostic log: no render, no
network call, no cache access (the store is left untouched, not even a lazy
eviction happens). -/
theorem C2_invalid_config_aborts (opts : Options) (cf : Bool)
    (store : Option StoreVal) (now tSave : Nat)
    (fr : Except String (List Video)) (putOk : Bool)
    (h : ¬ validConfig opts cf) :
    (initRun opts cf store now tSave fr putOk).events = [] ∧
      (initRun opts cf store now tSave fr putOk).store = store := by
  unfold validConfig at h
  push_neg at h
  unfold initRun
  by_cases h1 : cf = false
  · rw [if_pos h1]
    exact ⟨rfl, rfl⟩
  · have hcf : cf = true := by revert h1; cases cf <;> simp
    rw [if_neg h1]
    by_cases h2 : opts.apiKey = ""
    · rw [if_pos h2]
      exact ⟨rfl, rfl⟩
    · have h3 : opts.channelId = "" ∧ opts.channelUsername = "" := h hcf h2
      rw [if_neg h2, if_pos h3]
      exact ⟨rfl, rfl⟩

/-- C2 witness: missing API key, an expired entry in the store, a fetch that
would succeed — the run does nothing and the expired entry survives. -/
theorem C2_invalid_config_aborts_witness :
    (initRun optsNoKey true (some (StoreVal.good [vEx] 0)) 999999999 0
        (Except.ok [vEx]) true).events = [] ∧
      (initRun optsNoKey true (some (StoreVal.good [vEx] 0)) 999999999 0
        (Except.ok [vEx]) true).store = some (StoreVal.good [vEx] 0) :=
  C2_invalid_config_aborts optsNoKey true (some (StoreVal.good [vEx] 0))
    999999999 0 (Except.ok [vEx]) true (by decide)

/-- C3: in every run with a valid configuration and a cache miss where the
fetch succeeds with a non-empty record list and the storage write succeeds,
the cache is written with exactly the fetched records — same records, same
order — before the render (the trace is fetch, cache write, render), and
the store afterwards holds exactly those records. -/
theorem C3_fetch_success_caches_before_render (opts : Options) (cf : Bool)
    (store : Option StoreVal) (now tSave : Nat) (vs : List Video)
    (hv : validConfig opts cf)
    (hmiss : (getFromCache opts store now).1 = none)
    (hne : vs ≠ []) :
    initRun opts cf store now tSave (Except.ok vs) true =
      ⟨[Event.networkFetch, Event.cacheWrite vs, Event.render vs],
        some (StoreVal.good vs tSave)⟩ := by
  rw [initRun_of_valid opts cf store now tSave (Except.ok vs) true hv,
    runPipeline_miss opts store now tSave (Except.ok vs) true hmiss]
  simp only [dispatchFetch]
  rw [if_pos (List.length_pos.mpr hne)]
  simp [saveToCache]

/-- C3 witness: empty store, fetch returns one record → trace is fetch,
cache write, render, and the store ends as that record with the write
timestamp. -/
theorem C3_fetch_success_caches_before_render_witness :
    initRun optsEx true none 5 6 (Except.ok [vEx]) true =
      ⟨[Event.networkFetch, Event.cacheWrite [vEx], Event.render [vEx]],
        some (StoreVal.good [vEx] 6)⟩ :=
  C3_fetch_success_caches_before_render optsEx true none 5 6 [vEx]
    (by decide) rfl (by decide)

/-- C4 counterexample: a run with an EXPIRED entry in the store whose fetch
fails and which renders fallback-derived records.  The fallback path itself
writes nothing, but the initial cache check already evicted the expired
entry, so the cache after the run (absent) is NOT exactly what it was
before the run (present). -/
theorem C4_eviction_counterexample :
    (initRun optsEx true (some (StoreVal.good [vEx] 0)) 2000 2000
        (Except.error "x") true).events =
      [Event.networkFetch,
        Event.render (createFallbackVideos optsEx.fallbackVideos 2000)] ∧
      (initRun optsEx true (some (StoreVal.good [vEx] 0)) 2000 2000
        (Except.error "x") true).store = none ∧
      (none : Option StoreVal) ≠ some (StoreVal.good [vEx] 0) := by
  refine ⟨rfl, rfl, by decide⟩

/-- C4 (amended): the fallback path never writes the cache: after a
fallback-only render the store under the channel key is exactly what the
initial cache check left — the pre-run entry unchanged, except that an
expired pre-run entry has been lazily evicted by that check. -/
theorem C4_fallback_never_writes_cache (opts : Options) (cf : Bool)
    (store : Option StoreVal) (now tSave : Nat)
    (fr : Except String (List Video)) (putOk : Bool)
    (hv : validConfig opts cf)
    (hmiss : (getFromCache opts store now).1 = none)
    (hfe : fr = Except.ok [] ∨ ∃ s, fr = Except.error s)
    (hfb : createFallbackVideos opts.fallbackVideos now ≠ []) :
    (initRun opts cf store now tSave fr putOk).events =
      [Event.networkFetch,
        Event.render (createFallbackVideos opts.fallbackVideos now)] ∧
      (initRun opts cf store now tSave fr putOk).store =
        (getFromCache opts store now).2 := by
  rw [initRun_of_valid opts cf store now tSave fr putOk hv,
    runPipeline_miss opts store now tSave fr putOk hmiss]
  have hlen : 0 < (createFallbackVideos opts.fallbackVideos now).length :=
    List.length_pos.mpr hfb
  rcases hfe with h | ⟨s, h⟩ <;> subst h <;> simp only [dispatchFetch] <;>
    rw [if_pos hlen] <;> exact ⟨rfl, rfl⟩

/-- C4 witness: empty store, fetch rejects, one configured fallback entry →
fallback render, store still empty. -/
theorem C4_fallback_never_writes_cache_witness :
    (initRun optsEx true none 5 6 (Except.error "x") true).events =
      [Event.networkFetch,
        Event.render (createFallbackVideos optsEx.fallbackVideos 5)] ∧
      (initRun optsEx true none 5 6 (Except.error "x") true).store =
        (getFromCache optsEx none 5).2 :=
  C4_fallback_never_writes_cache optsEx true none 5 6 (Except.error "x") true
    (by decide) rfl (Or.inr ⟨"x", rfl⟩) (by decide)

/-- C5: for every valid-configuration cache-miss run, an empty-success fetch
and a failed fetch (any error — resolution and fetch failures are both a
single rejection) lead to the same fallback-composition attempt; the error
view is rendered only when the fallback yields zero records, and the message
reflects the proximate cause: `No videos found` after an empty success,
`Failed to load videos` after a failure; otherwise both branches render
exactly the composed fallback records. -/
theorem C5_fallback_convergence_and_messages (opts : Options) (cf : Bool)
    (store : Option StoreVal) (now tSave : Nat) (putOk : Bool)
    (hv : validConfig opts cf)
    (hmiss : (getFromCache opts store now).1 = none) :
    ((initRun opts cf store now tSave (Except.ok []) putOk).events =
        [Event.networkFetch] ++
          (if createFallbackVideos opts.fallbackVideos now = [] then
            [Event.showError "No videos found"]
          else [Event.render (createFallbackVideos opts.fallbackVideos now)])) ∧
      ∀ err : String,
        (initRun opts cf store now tSave (Except.error err) putOk).events =
          [Event.networkFetch] ++
            (if createFallbackVideos opts.fallbackVideos now = [] then
              [Event.showError "Failed to load videos"]
            else [Event.render (createFallbackVideos opts.fallbackVideos now)]) := by
  constructor
  · rw [initRun_of_valid opts cf store now tSave (Except.ok []) putOk hv,
      runPipeline_miss opts store now tSave (Except.ok []) putOk hmiss]
    by_cases hfb : createFallbackVideos opts.fallbackVideos now = []
    · simp [dispatchFetch, hfb]
    · simp [dispatchFetch, hfb, List.length_pos.mpr hfb]
  · intro err
    rw [initRun_of_valid opts cf store now tSave (Except.error err) putOk hv,
      runPipeline_miss opts store now tSave (Except.error err) putOk hmiss]
    by_cases hfb : createFallbackVideos opts.fallbackVideos now = []
    · simp [dispatchFetch, hfb]
    · simp [dispatchFetch, hfb, List.length_pos.mpr hfb]

/-- C5 witness: empty store, one configured fallback entry — the empty
success renders the fallback records; so does every failed fetch. -/
theorem C5_fallback_convergence_and_messages_witness :
    ((initRun optsEx true none 5 6 (Except.ok []) true).events =
        [Event.networkFetch] ++
          (if createFallbackVideos optsEx.fallbackVideos 5 = [] then
            [Event.showError "No videos found"]
          else [Event.render (createFallbackVideos optsEx.fallbackVideos 5)])) ∧
      ∀ err : String,
        (initRun optsEx true none 5 6 (Except.error err) true).events =
          [Event.networkFetch] ++
            (if createFallbackVideos optsEx.fallbackVideos 5 = [] then
              [Event.showError "Failed to load videos"]
            else [Event.render (createFallbackVideos optsEx.fallbackVideos 5)]) :=
  C5_fallback_convergence_and_messages optsEx true none 5 6 true
    (by decide) rfl

/-- C6: the fallback composer maps every configured list to a record
sequence of equal length in the same order; concretely, the bare-string
entry `abc123` in first position yields title `Video 1`, watch URL
`https://www.youtube.com/watch?v=abc123` and thumbnail
`https://i.ytimg.com/vi/abc123/hqdefault.jpg`, and the structured entry
`{id: xyz, title: Custom}` in second position keeps its title `Custom` and
gets the same URL / thumbnail patterns from its identifier. -/
theorem C6_fallback_synthesis :
    (∀ (l : List FallbackEntry) (now : Nat),
        (createFallbackVideos (some l) now).length = l.length) ∧
      createFallbackVideos
          (some [FallbackEntry.str "abc123",
            FallbackEntry.obj (some "xyz") (some "Custom") none]) 7 =
        [{ id := "abc123", title := "Video 1", description := "",
           thumbnail :=
             ⟨"https://i.ytimg.com/vi/abc123/hqdefault.jpg", 480, 360⟩,
           publishedAt := 7, channelTitle := "Alaan TV Channel",
           url := some "https://www.youtube.com/watch?v=abc123" },
         { id := "xyz", title := "Custom", description := "",
           thumbnail :=
             ⟨"https://i.ytimg.com/vi/xyz/hqdefault.jpg", 480, 360⟩,
           publishedAt := 7, channelTitle := "Alaan TV Channel",
           url := some "https://www.youtube.com/watch?v=xyz" }] := by
  constructor
  · intro l now
    simp only [createFallbackVideos]
    by_cases h : l.length = 0
    · rw [if_pos h, h]
      rfl
    · rw [if_neg h, List.length_mapIdx]
  · decide

/-- C7: the fallback composer is a total function of the configured list —
for any input, including malformed entries (an object whose `id` property is
missing), it raises no error and performs no network call (it consumes no
network oracle); a malformed configuration (absent/empty list, the JS guard
`!this.options.fallbackVideos`) produces the empty sequence, and every
present list produces exactly one record per entry. -/
theorem C7_fallback_total_no_failure :
    (∀ (cfg : Option (List FallbackEntry)) (now : Nat),
        (createFallbackVideos cfg now).length =
          match cfg with
          | none => 0
          | some l => l.length) ∧
      (∀ now : Nat, createFallbackVideos none now = []) ∧
      (createFallbackVideos (some [FallbackEntry.obj none none none]) 3).length
        = 1 := by
  refine ⟨?_, fun _ => rfl, by decide⟩
  intro cfg now
  match cfg with
  | none => rfl
  | some l =>
    simp only [createFallbackVideos]
    by_cases h : l.length = 0
    · rw [if_pos h, h]
      rfl
    · rw [if_neg h, List.length_mapIdx]

/-- C8: for every valid-configuration run whose stored entry satisfies
`capturedAt + ttl > now` at the cache check, the pipeline renders exactly
the cached records, unchanged and in their stored order, the entry stays in
the store, and the trace contains no network fetch. -/
theorem C8_valid_cache_hit_renders_no_network (opts : Options) (cf : Bool)
    (vs : List Video) (ts now tSave : Nat)
    (fr : Except String (List Video)) (putOk : Bool)
    (hv : validConfig opts cf)
    (hfresh : now < ts + opts.cacheExpiration * 1000) :
    initRun opts cf (some (StoreVal.good vs ts)) now tSave fr putOk =
      ⟨[Event.render vs], some (StoreVal.good vs ts)⟩ := by
  have hget : getFromCache opts (some (StoreVal.good vs ts)) now =
      (some vs, some (StoreVal.good vs ts)) := by
    simp only [getFromCache]
    rw [if_neg (by omega)]
  rw [initRun_of_valid opts cf (some (StoreVal.good vs ts)) now tSave fr putOk hv]
  unfold runPipeline
  rw [hget]

/-- C8 witness: a one-hour-TTL entry captured at time 0, read 1 ms later,
is rendered as-is with no fetch event, whatever the network would have
answered. -/
theorem C8_valid_cache_hit_renders_no_network_witness :
    initRun optsEx true (some (StoreVal.good [vEx] 0)) 1 2
        (Except.error "net down") true =
      ⟨[Event.render [vEx]], some (StoreVal.good [vEx] 0)⟩ :=
  C8_valid_cache_hit_renders_no_network optsEx true [vEx] 0 1 2
    (Except.error "net down") true (by decide) (by decide)

/-- C9: when the cache write fails during a successful-fetch run, the
failure is swallowed after logging: the same records are still rendered,
no error view is shown, and the store ends exactly as the cache check left
it — the run is indistinguishable (same trace minus the write event, same
store) from one where the write was never attempted. -/
theorem C9_cache_write_failure_swallowed (opts : Options) (cf : Bool)
    (store : Option StoreVal) (now tSave : Nat) (vs : List Video)
    (hv : validConfig opts cf)
    (hmiss : (getFromCache opts store now).1 = none)
    (hne : vs ≠ []) :
    (initRun opts cf store now tSave (Except.ok vs) false).events =
        [Event.networkFetch, Event.render vs] ∧
      (initRun opts cf store now tSave (Except.ok vs) false).store =
        (getFromCache opts store now).2 := by
  rw [initRun_of_valid opts cf store now tSave (Except.ok vs) false hv,
    runPipeline_miss opts store now tSave (Except.ok vs) false hmiss]
  simp only [dispatchFetch]
  rw [if_pos (List.length_pos.mpr hne)]
  exact ⟨rfl, rfl⟩

/-- C9 witness: empty store, fetch yields one record, write fails — the
record is rendered and the store stays empty. -/
theorem C9_cache_write_failure_swallowed_witness :
    (initRun optsEx true none 5 6 (Except.ok [vEx]) false).events =
        [Event.networkFetch, Event.render [vEx]] ∧
      (initRun optsEx true none 5 6 (Except.ok [vEx]) false).store =
        (getFromCache optsEx none 5).2 :=
  C9_cache_write_failure_swallowed optsEx true none 5 6 [vEx]
    (by decide) rfl (by decide)

/-- C10: a stored value that does not parse back into a `{videos,
timestamp}` structure never makes the cache get throw (the JS catch returns
`null`): the get reports a miss, and — unlike the expired case — the
corrupted entry is NOT removed from the store; the pipeline then proceeds
to the network fetch. -/
theorem C10_corrupt_entry_miss_no_evict (opts : Options) (cf : Bool)
    (raw : String) (now tSave : Nat)
    (fr : Except String (List Video)) (putOk : Bool)
    (hv : validConfig opts cf) :
    getFromCache opts (some (StoreVal.corrupt raw)) now =
        (none, some (StoreVal.corrupt raw)) ∧
      (initRun opts cf (some (StoreVal.corrupt raw)) now tSave fr putOk).events.head?
        = some Event.networkFetch := by
  refine ⟨rfl, ?_⟩
  rw [initRun_of_valid opts cf (some (StoreVal.corrupt raw)) now tSave fr putOk hv,
    runPipeline_miss opts (some (StoreVal.corrupt raw)) now tSave fr putOk rfl]
  rcases fr with e | vs
  · by_cases hfb : (createFallbackVideos opts.fallbackVideos now).length > 0 <;>
      simp [dispatchFetch, hfb]
  · by_cases hvs : vs.length > 0
    · simp [dispatchFetch, hvs]
    · by_cases hfb : (createFallbackVideos opts.fallbackVideos now).length > 0 <;>
        simp [dispatchFetch, hvs, hfb]

/-- C10 witness: a corrupt stored string, valid configuration — the get is a
miss, the entry survives, and the run starts with the network fetch. -/
theorem C10_corrupt_entry_miss_no_evict_witness :
    getFromCache optsEx (some (StoreVal.corrupt "\x7bgarbage")) 5 =
        (none, some (StoreVal.corrupt "\x7bgarbage")) ∧
      (initRun optsEx true (some (StoreVal.corrupt "\x7bgarbage")) 5 6
        (Except.ok [vEx]) true).events.head? = some Event.networkFetch :=
  C10_corrupt_entry_miss_no_evict optsEx true "\x7bgarbage" 5 6
    (Except.ok [vEx]) true (by decide)
